import Mathlib

/-!
Verification development for the Thesis Strength Analyzer backend
(src/backend/analyzer.py, models.py, main.py, vocabularies.py).

The Python code is shallowly embedded: its float arithmetic is modelled
exactly by rational numbers, Python strings by Lean strings, and the two
external black boxes (the sentence-embedding model behind
templates.get_embedding_vote and the OpenAI chat completion behind
StrengthAnalyzer._llm_analyze) by explicit oracle parameters, with `none`
standing for a raised exception, exactly where the source wraps the call
in try/except.  spaCy preprocessing (sentence segmentation, entities) is
out of scope per the spec; its outputs (the sentence list and the
MLFeatures counts) are inputs to the embedded pipeline.
-/

namespace ThesisAnalyzer

/-! ## Python string primitives -/

/-- Python whitespace characters (the ASCII ones relevant to str.strip,
str.split and the regex class backslash-s). -/
def isPyWs (c : Char) : Bool :=
  c = ' ' || c = '\t' || c = '\n' || c = '\x0d' || c = '\x0b' || c = '\x0c'

/-- ASCII lowercase of one character. -/
def charLower (c : Char) : Char :=
  if 'A' ≤ c ∧ c ≤ 'Z' then Char.ofNat (c.toNat + 32) else c

/-- Python str.lower for the ASCII texts handled here. -/
def pyLower (s : String) : String := String.mk (s.toList.map charLower)

/-- Python str.strip: drop leading and trailing whitespace. -/
def pyStrip (s : String) : String :=
  String.mk (((s.toList.dropWhile isPyWs).reverse.dropWhile isPyWs).reverse)

/-- Python substring test: `needle in hay` (empty needle is in everything). -/
def strContainsSub (hay needle : String) : Bool :=
  hay.toList.tails.any (fun t => needle.toList.isPrefixOf t)

/-- Number of list entries that occur as substrings of the haystack:
Python sum(1 for w in ws if w in hay). -/
def countPresent (ws : List String) (hay : String) : ℕ :=
  (ws.filter (fun w => strContainsSub hay w)).length

/-- Python any(w in hay for w in ws). -/
def anyPresent (ws : List String) (hay : String) : Bool :=
  ws.any (fun w => strContainsSub hay w)

/-- Auxiliary word counter: second argument records whether the scan
is inside a word. -/
def pySplitCountAux : List Char → Bool → ℕ
  | [], _ => 0
  | c :: cs, inWord =>
    if isPyWs c then pySplitCountAux cs false
    else (if inWord then 0 else 1) + pySplitCountAux cs true

/-- Python len(text.split()): number of maximal runs of non-whitespace. -/
def pySplitCount (s : String) : ℕ :=
  pySplitCountAux s.toList false

/-! ## Vocabulary banks (src/backend/vocabularies.py, verbatim) -/

def EVIDENCE_MARKERS_strong : List String :=
  ["according to", "reported", "data shows", "SEC filing",
   "financial statements", "confirmed", "announced", "disclosed",
   "quarterly report", "annual report", "10-K", "10-Q"]

def EVIDENCE_MARKERS_moderate : List String :=
  ["suggests", "indicates", "based on", "research shows",
   "analysis indicates", "historically"]

def EVIDENCE_MARKERS_weak : List String :=
  ["seems", "appears", "might indicate", "could suggest"]

/-- All values of the EVIDENCE_MARKERS dict, in insertion order. -/
def EVIDENCE_MARKERS_all : List String :=
  EVIDENCE_MARKERS_strong ++ EVIDENCE_MARKERS_moderate ++ EVIDENCE_MARKERS_weak

def VAGUE_WORDS : List String :=
  ["some", "many", "most", "often", "usually", "significant",
   "substantial", "considerable", "various", "numerous"]

def WEASEL_WORDS : List String :=
  ["might", "could", "possibly", "potentially", "arguably",
   "perhaps", "probably", "likely", "tend to", "generally"]

def RISK_VOCABULARY_risk_terms : List String :=
  ["risk", "downside", "bear case", "if fails", "could break",
   "what could go wrong", "threats", "challenges", "headwinds"]

def RISK_VOCABULARY_mitigation_terms : List String :=
  ["stop loss", "exit if", "position size", "limit exposure",
   "hedge", "diversify", "cap allocation", "monitor"]

def ACTIONABILITY_SIGNALS_strong : List String :=
  ["buy", "sell", "enter", "exit", "allocate", "position",
   "trade", "invest", "accumulate", "book profits"]

def ACTIONABILITY_SIGNALS_entry_exit : List String :=
  ["entry point", "exit when", "target price", "stop loss at",
   "buy at", "sell at", "take profit"]

def ACTIONABILITY_SIGNALS_monitoring : List String :=
  ["watch for", "monitor", "track", "reassess if", "review when",
   "catalyst", "trigger", "signal"]

def FACT_INDICATORS : List String :=
  ["reported", "announced", "disclosed", "confirmed", "released",
   "grew", "increased", "decreased", "fell", "rose", "expanded"]

/-- Note: the entries with a capital I can never match the lowercased
sentence they are searched in; the embedding keeps them verbatim. -/
def OPINION_INDICATORS : List String :=
  ["I think", "I believe", "in my view", "in my opinion",
   "we expect", "we believe", "appears to be", "seems"]

def ASSUMPTION_INDICATORS : List String :=
  ["assuming", "if", "given that", "provided that", "contingent on",
   "depends on", "relies on", "based on the assumption"]

def PROJECTION_INDICATORS : List String :=
  ["will", "expected to", "forecast", "projected", "anticipated",
   "likely to", "set to", "poised to", "on track to"]

def FINANCIAL_STATEMENT_REFS : List String :=
  ["10-K", "10-Q", "annual report", "quarterly report", "SEC filing",
   "balance sheet", "income statement", "cash flow statement",
   "earnings call", "investor presentation", "management commentary",
   "financial statements", "audited report", "proxy statement"]

def CREDIBLE_SOURCES : List String :=
  ["Bloomberg", "Reuters", "Wall Street Journal", "Financial Times",
   "SEC", "SEBI", "management guidance", "analyst estimates", "consensus",
   "company filings", "official announcement", "press release",
   "quarterly earnings", "annual general meeting", "investor day"]

def CAUSAL_CONNECTORS_strong_causal : List String :=
  ["because", "therefore", "thus", "hence", "as a result",
   "consequently", "due to", "caused by", "leading to"]

def CERTAINTY_LEVELS_high : List String :=
  ["definitely", "certainly", "always", "never", "absolutely",
   "guaranteed", "undoubtedly", "without doubt", "must", "will definitely"]

def CERTAINTY_LEVELS_medium : List String :=
  ["likely", "probably", "should", "expected", "typically",
   "generally", "usually", "tends to", "often"]

def CERTAINTY_LEVELS_low : List String :=
  ["might", "could", "possibly", "may", "perhaps",
   "potentially", "conceivably", "arguably"]

def CERTAINTY_LEVELS_hedged : List String :=
  ["assuming", "if", "provided that", "contingent on", "depends on",
   "subject to", "given that", "in the event"]

def OVERCONFIDENCE_INDICATORS : List String :=
  ["will definitely", "guaranteed to", "certainly will", "must happen",
   "no doubt", "100%", "impossible to fail", "cannot lose"]

/-! ## Regex scans

The handful of regular expressions the analyzer applies are embedded as
direct character scans; each helper documents the pattern it implements.
All the patterns are backtracking-free in the relevant sense (a maximal
digit run followed by a fixed delimiter), so a greedy scan is equivalent
to Python re semantics. -/

/-- Drop a leading run of decimal digits. -/
def dropDigits : List Char → List Char
  | c :: cs => if c.isDigit then dropDigits cs else c :: cs
  | [] => []

/-- Length of the leading run of decimal digits. -/
def leadingDigits : List Char → ℕ
  | c :: cs => if c.isDigit then leadingDigits cs + 1 else 0
  | [] => 0

/-- Drop a leading run of regex whitespace. -/
def dropWs : List Char → List Char
  | c :: cs => if isPyWs c then dropWs cs else c :: cs
  | [] => []

/-- Length of the leading run of regex whitespace. -/
def leadingWs : List Char → ℕ
  | c :: cs => if isPyWs c then leadingWs cs + 1 else 0
  | [] => 0

/-- If lit (as a char list) is a prefix, return the remainder. -/
def stripLit (lit : String) (cs : List Char) : Option (List Char) :=
  if lit.toList.isPrefixOf cs then some (cs.drop lit.length) else none

/-- Four decimal digits start here (regex backslash-d repeated 4 times,
as a search component: further digits after them do not matter). -/
def fourDigitsAt : List Char → Bool
  | a :: b :: c :: d :: _ => a.isDigit && b.isDigit && c.isDigit && d.isDigit
  | _ => false

/-- Two decimal digits start here (for a {2,4} repetition under search,
two suffice). -/
def twoDigitsAt : List Char → Bool
  | a :: b :: _ => a.isDigit && b.isDigit
  | _ => false

/-- Pattern (backslash-d)+ then optional dot then (backslash-d)* then
the percent sign, anchored at this position. -/
def pctDotAt (cs : List Char) : Bool :=
  match cs with
  | c :: rest =>
    c.isDigit &&
      (match dropDigits rest with
       | '.' :: r2 =>
         (match dropDigits r2 with
          | '%' :: _ => true
          | _ => false)
       | '%' :: _ => true
       | _ => false)
  | [] => false

/-- Pattern (backslash-d)+ then the percent sign, anchored here. -/
def pctPlainAt (cs : List Char) : Bool :=
  match cs with
  | c :: rest =>
    c.isDigit &&
      (match dropDigits rest with
       | '%' :: _ => true
       | _ => false)
  | [] => false

/-- Pattern: currency symbol then at least one of digit or comma,
anchored here (the character classes of the dollar and rupee amount
regexes in analyzer.py). -/
def moneyAt (sym : Char) (cs : List Char) : Bool :=
  match cs with
  | c :: d :: _ => c = sym && (d.isDigit || d = ',')
  | _ => false

/-- re.search of the given position matcher anywhere in the string. -/
def searchAt (p : List Char → Bool) (s : String) : Bool :=
  s.toList.tails.any p

/-- re.search for the percentage pattern with optional decimal part. -/
def hasPctDot (s : String) : Bool := searchAt pctDotAt s

/-- re.search for dollar or rupee amounts. -/
def hasMoney (s : String) : Bool :=
  searchAt (moneyAt '$') s || searchAt (moneyAt '₹') s

/-- re.search for the support-level numeric alternation in
analyzer.py line 453: digits then percent, or a currency amount. -/
def hasSupportNumeric (s : String) : Bool :=
  searchAt pctPlainAt s || hasMoney s

/-! TIME_BOUND_PATTERNS, matched with re.IGNORECASE.  The embedding
matches the lowercased pattern against the lowercased sentence, which is
equivalent for these ASCII patterns. -/

/-- Pattern: literal "in q", a digit 1-4, optional whitespace, 4 digits. -/
def timeQuarterAt (cs : List Char) : Bool :=
  match stripLit "in q" cs with
  | some (c :: rest) =>
    (c = '1' || c = '2' || c = '3' || c = '4') && fourDigitsAt (dropWs rest)
  | _ => false

/-- Pattern: literal "fy" then 2 to 4 digits (2 suffice under search). -/
def timeFyAt (cs : List Char) : Bool :=
  match stripLit "fy" cs with
  | some rest => twoDigitsAt rest
  | none => false

/-- Pattern: "h1" or "h2", optional whitespace, 4 digits. -/
def timeHalfAt (cs : List Char) : Bool :=
  match cs with
  | 'h' :: c :: rest => (c = '1' || c = '2') && fourDigitsAt (dropWs rest)
  | _ => false

/-- Pattern: 4 digits, hyphen or en dash, 2 to 4 digits. -/
def timeRangeAt (cs : List Char) : Bool :=
  match cs with
  | a :: b :: c :: d :: e :: rest =>
    a.isDigit && b.isDigit && c.isDigit && d.isDigit &&
      (e = '-' || e = '–') && twoDigitsAt rest
  | _ => false

/-- Pattern: "over the (past or last or next) ", digits, a space, then
year or quarter or month (the optional plural s never blocks a search
match). -/
def timeOverAt (cs : List Char) : Bool :=
  match stripLit "over the " cs with
  | some rest =>
    (["past ", "last ", "next "].any fun w =>
      match stripLit w rest with
      | some r2 =>
        leadingDigits r2 > 0 &&
          (match dropDigits r2 with
           | ' ' :: r3 =>
             ["year", "quarter", "month"].any fun u => (stripLit u r3).isSome
           | _ => false)
      | none => false)
  | none => false

/-- Pattern: "cagr of ", digits, percent sign. -/
def timeCagrAt (cs : List Char) : Bool :=
  match stripLit "cagr of " cs with
  | some rest => pctPlainAt rest
  | none => false

/-- Pattern: "since " or "from " then 4 digits. -/
def timeSinceAt (cs : List Char) : Bool :=
  ["since ", "from "].any fun w =>
    match stripLit w cs with
    | some rest => fourDigitsAt rest
    | none => false

/-- Python: any TIME_BOUND_PATTERNS regex matches the sentence (the
loop in analyzer.py lines 351-354 breaks after the first, scoring +2 at
most once, so only whether some pattern matches is observable).  The
sixth pattern (YoY or QoQ or MoM) is a plain substring test after
lowercasing. -/
def hasTimeBound (sl : String) : Bool :=
  sl.toList.tails.any (fun cs =>
    timeQuarterAt cs || timeFyAt cs || timeHalfAt cs || timeRangeAt cs ||
    timeOverAt cs || timeCagrAt cs || timeSinceAt cs) ||
  anyPresent ["yoy", "qoq", "mom"] sl

/-! ## Data model (src/backend/models.py) -/

/-- models.SentenceType; the list order below is the insertion order of
the pattern_scores dict in analyzer.py. -/
inductive SentenceType where
  | FACT
  | OPINION
  | ASSUMPTION
  | PROJECTION
  | CONTEXT
deriving DecidableEq, Repr

/-- SentenceType.value in models.py. -/
def SentenceType.value : SentenceType → String
  | .FACT => "FACT"
  | .OPINION => "OPINION"
  | .ASSUMPTION => "ASSUMPTION"
  | .PROJECTION => "PROJECTION"
  | .CONTEXT => "CONTEXT"

/-- Python SentenceType(string) construction; none models ValueError. -/
def parseSentenceType (s : String) : Option SentenceType :=
  if s = "FACT" then some .FACT
  else if s = "OPINION" then some .OPINION
  else if s = "ASSUMPTION" then some .ASSUMPTION
  else if s = "PROJECTION" then some .PROJECTION
  else if s = "CONTEXT" then some .CONTEXT
  else none

/-- models.SupportLevel. -/
inductive SupportLevel where
  | SUPPORTED
  | PARTIAL
  | UNSUPPORTED
deriving DecidableEq, Repr

/-- models.SentenceRole (TANGENT is declared but, as claim C10 records,
never produced by the classifier). -/
inductive SentenceRole where
  | FOUNDATION
  | EVIDENCE
  | BRIDGE
  | CONCLUSION
  | TANGENT
deriving DecidableEq, Repr

/-- models.SentenceAnalysis.  The entities field (always left at its
default by the analyzer) is omitted; issues is the plain list the
dataclass default_factory creates, so the defensive is-None checks in
analyzer.py are no-ops and are not modelled. -/
structure SentenceAnalysis where
  index : ℕ
  text : String
  sentence_type : SentenceType
  support_level : SupportLevel
  role : SentenceRole
  confidence : ℚ
  issues : List String
deriving DecidableEq, Repr

/-- models.ComponentScore (max_score is the constant 20 and the
confidence field is never read; both omitted).  The source rounds the
breakdown values to one decimal for display; the embedding stores them
unrounded, no claim reads them. -/
structure ComponentScore where
  name : String
  score : ℚ
  breakdown : List (String × ℚ)
  notes : List String
deriving DecidableEq, Repr

/-- models.MLFeatures: the aggregate counts _preprocess extracts (spaCy
parts are external inputs). -/
structure MLFeatures where
  sentence_count : ℕ := 0
  entity_count : ℕ := 0
  source_citation_count : ℕ := 0
  numerical_data_count : ℕ := 0
  date_references : List String := []
  vague_word_count : ℕ := 0
  weasel_word_count : ℕ := 0
  certainty_word_count : ℕ := 0
  risk_vocabulary_count : ℕ := 0
  actionability_signals : ℕ := 0
  companies_mentioned : List String := []
deriving DecidableEq, Repr

/-- models.BiasAnalysis.  The fields named positive_ratio and
negative_ratio in the source are called positive_pct and negative_pct
here. -/
structure BiasAnalysis where
  is_biased : Bool
  bias_score : ℚ
  positive_pct : ℚ
  negative_pct : ℚ
  counter_arguments_present : Bool
  one_sided_flags : List String
deriving DecidableEq, Repr

/-! ## Sentence classifier (StrengthAnalyzer._classify_sentences_ml) -/

/-- The external embedding vote (templates.get_embedding_vote): for a
sentence, the maximal cosine similarity against each type template set.
The call sits inside try/except in analyzer.py; none models any raised
exception. -/
def EmbedOracle : Type := String → Option (SentenceType → ℚ)

/-- Iteration order of the pattern_scores dict. -/
def typeOrder : List SentenceType :=
  [.FACT, .OPINION, .ASSUMPTION, .PROJECTION, .CONTEXT]

/-- Python max(scores, key=scores.get): the first key in iteration
order attaining the maximal value (later keys replace only on a
strictly greater value). -/
def argmaxType {α : Type} [LinearOrder α] (f : SentenceType → α) : SentenceType :=
  [SentenceType.OPINION, .ASSUMPTION, .PROJECTION, .CONTEXT].foldl
    (fun best t => if f t > f best then t else best) SentenceType.FACT

/-- Python sum(scores.values()). -/
def sumScores {α : Type} [Add α] (f : SentenceType → α) : α :=
  f .FACT + f .OPINION + f .ASSUMPTION + f .PROJECTION + f .CONTEXT

/-- Python max(scores.values()). -/
def maxScoreValue {α : Type} [LinearOrder α] (f : SentenceType → α) : α :=
  [SentenceType.OPINION, .ASSUMPTION, .PROJECTION, .CONTEXT].foldl
    (fun best t => max best (f t)) (f .FACT)

/-- Pattern-based scoring, analyzer.py lines 323-376: per-type integer
weights accumulated from vocabulary hits and the numeric regexes
(Python ints). -/
def patternScores (sentence : String) : SentenceType → ℕ :=
  let sl := pyLower sentence
  let factScore : ℕ :=
    2 * countPresent FACT_INDICATORS sl +
    3 * countPresent (FINANCIAL_STATEMENT_REFS.map pyLower) sl +
    2 * countPresent (CREDIBLE_SOURCES.map pyLower) sl +
    (if hasPctDot sentence then 3 else 0) +
    (if hasMoney sentence then 2 else 0) +
    (if hasTimeBound sl then 2 else 0)
  let opinionScore : ℕ := 3 * countPresent OPINION_INDICATORS sl
  let assumptionScore : ℕ := 3 * countPresent ASSUMPTION_INDICATORS sl
  let projectionScore : ℕ :=
    2 * countPresent PROJECTION_INDICATORS sl +
    (if strContainsSub sl " will " || strContainsSub sl " would " then 1 else 0)
  let contextScore : ℕ :=
    if anyPresent CAUSAL_CONNECTORS_strong_causal sl then 1 else 0
  fun t =>
    match t with
    | .FACT => factScore
    | .OPINION => opinionScore
    | .ASSUMPTION => assumptionScore
    | .PROJECTION => projectionScore
    | .CONTEXT => contextScore

/-- pattern_max_score of a sentence (value at the arg-max type). -/
def pattern_max_score (sentence : String) : ℕ :=
  patternScores sentence (argmaxType (patternScores sentence))

/-- pattern_total of a sentence. -/
def pattern_total (sentence : String) : ℕ :=
  sumScores (patternScores sentence)

/-- analyzer.py line 384: use the embedding vote only at low pattern
confidence.  The quotient is Python float division of the int
pattern_max_score by max(pattern_total, 1), modelled exactly in ℚ. -/
def use_embeddings (sentence : String) : Bool :=
  decide (pattern_total sentence < 5) ||
  decide ((pattern_max_score sentence : ℚ) /
    ((max (pattern_total sentence) 1 : ℕ) : ℚ) < 7/10)

/-- analyzer.py line 386: the embedding vote is consulted iff
use_embeddings holds and the stripped sentence is longer than 20
characters (inner whitespace included in the count). -/
def consults_embedding (sentence : String) : Bool :=
  use_embeddings sentence && decide ((pyStrip sentence).length > 20)

/-- Certainty analysis, lines 423-427: the first CERTAINTY_LEVELS key
(dict order high, medium, low, hedged) whose word list hits. -/
def certaintyLevelOf (sl : String) : Option String :=
  if anyPresent CERTAINTY_LEVELS_high sl then some "high"
  else if anyPresent CERTAINTY_LEVELS_medium sl then some "medium"
  else if anyPresent CERTAINTY_LEVELS_low sl then some "low"
  else if anyPresent CERTAINTY_LEVELS_hedged sl then some "hedged"
  else none

/-- Issue collection, lines 429-443. -/
def issuesOf (sl : String) : List String :=
  let certainty_level := certaintyLevelOf sl
  let i1 : List String :=
    if certainty_level = some "high" && !(anyPresent EVIDENCE_MARKERS_all sl) then
      ["High certainty language without supporting evidence"]
    else []
  let i2 : List String :=
    match OVERCONFIDENCE_INDICATORS.find? (fun ind => strContainsSub sl (pyLower ind)) with
    | some ind => ["Overconfident claim: \x27" ++ ind ++ "\x27"]
    | none => []
  let i3 : List String :=
    if anyPresent VAGUE_WORDS sl then ["Vague quantifier used"] else []
  i1 ++ i2 ++ i3

/-- Support level, lines 446-456 (uses the post-adjustment max type). -/
def supportOf (sentence sl : String) (max_type : SentenceType) : SupportLevel :=
  if anyPresent EVIDENCE_MARKERS_strong sl then .SUPPORTED
  else if anyPresent (FINANCIAL_STATEMENT_REFS.map pyLower) sl then .SUPPORTED
  else if anyPresent EVIDENCE_MARKERS_moderate sl then .SUPPORTED
  else if hasSupportNumeric sentence then .PARTIAL
  else if anyPresent WEASEL_WORDS sl && decide (max_type ≠ .PROJECTION) then .UNSUPPORTED
  else .PARTIAL

/-- Structural role, lines 459-465: single pass, first rule wins. -/
def roleOf (i total_sentences : ℕ) (sl : String) (max_type : SentenceType) : SentenceRole :=
  if i = 0 || strContainsSub sl "thesis" then .FOUNDATION
  else if max_type = .FACT then .EVIDENCE
  else if i = total_sentences - 1 ||
      anyPresent ["therefore", "thus", "hence"] sl then .CONCLUSION
  else .BRIDGE

/-- The loop body of _classify_sentences_ml for the sentence at 0-based
position i of total_sentences.  The embedding branch normalizes the
vote by its maximum and blends 60 percent pattern with 40 percent
embedding; a zero maximum raises ZeroDivisionError in Python, which the
surrounding except catches, so it falls back to the pattern result just
like an oracle failure. -/
def classifyOne (oracle : EmbedOracle) (total_sentences i : ℕ)
    (sentence : String) : SentenceAnalysis :=
  let sent_lower := pyLower sentence
  let pScores := patternScores sentence
  let pattern_max_type := argmaxType pScores
  let pms : ℚ := ((pScores pattern_max_type : ℕ) : ℚ)
  let ptot : ℚ := ((sumScores pScores : ℕ) : ℚ)
  let mts : SentenceType × ℚ × ℚ :=
    if consults_embedding sentence then
      match oracle sentence with
      | some embed_scores =>
        let embed_max := maxScoreValue embed_scores
        if embed_max = 0 then (pattern_max_type, pms, ptot)
        else
          let embed_normalized := fun t => embed_scores t / embed_max * 5
          let combined := fun t =>
            (patternScores sentence t : ℚ) * (3/5) + embed_normalized t * (2/5)
          (argmaxType combined, combined (argmaxType combined), sumScores combined)
      | none => (pattern_max_type, pms, ptot)
    else (pattern_max_type, pms, ptot)
  let total_score := mts.2.2
  let tc : SentenceType × ℚ :=
    if total_score = 0 then (SentenceType.CONTEXT, mkRat 1 2)
    else (mts.1, min 1 (mts.2.1 / max total_score 1 * (6/5)))
  let max_type := tc.1
  { index := i + 1
    text := sentence
    sentence_type := max_type
    support_level := supportOf sentence sent_lower max_type
    role := roleOf i total_sentences sent_lower max_type
    confidence := tc.2
    issues := issuesOf sent_lower }

/-- _classify_sentences_ml: the per-sentence records in order, and the
0-based loop indices of the sentences whose confidence falls under
0.55 (analyzer.py lines 479-480 append the loop variable i, not the
1-based record index). -/
def classify_sentences_ml (oracle : EmbedOracle) (sentences : List String) :
    List SentenceAnalysis × List ℕ :=
  let n := sentences.length
  ((List.range n).map (fun i => classifyOne oracle n i (sentences.getD i "")),
   (List.range n).filter (fun i =>
     decide ((classifyOne oracle n i (sentences.getD i "")).confidence < mkRat 11 20)))

/-! ## Quantitative scorers (analyzer.py lines 484-619) -/

/-- Generic re.findall counter: matchLen gives the length of the match
anchored at a position (none if no match); matches are non-overlapping,
scanning left to right. -/
def countMatchesAux (matchLen : List Char → Option ℕ) : List Char → ℕ
  | [] => 0
  | c :: cs =>
    match matchLen (c :: cs) with
    | some n => 1 + countMatchesAux matchLen (cs.drop (n - 1))
    | none => countMatchesAux matchLen cs
termination_by l => l.length
decreasing_by
  · simp only [List.length_cons, List.length_drop]
    omega
  · simp only [List.length_cons]
    omega

/-- re.findall match count over a string. -/
def countMatches (matchLen : List Char → Option ℕ) (s : String) : ℕ :=
  countMatchesAux matchLen s.toList

/-- Length of a run of characters in the class digit, comma, dot. -/
def leadingMoneyChars : List Char → ℕ
  | c :: cs =>
    if c.isDigit || c = ',' || c = '.' then leadingMoneyChars cs + 1 else 0
  | [] => 0

/-- Clarity target pattern 1: dollar sign then at least one of digit,
comma or dot (greedy). -/
def targetMoneyLen (cs : List Char) : Option ℕ :=
  match cs with
  | '$' :: rest =>
    let k := leadingMoneyChars rest
    if k = 0 then none else some (1 + k)
  | _ => none

/-- Clarity target pattern 2: digits then percent sign. -/
def targetPctLen (cs : List Char) : Option ℕ :=
  let k := leadingDigits cs
  if k = 0 then none
  else
    match cs.drop k with
    | '%' :: _ => some (k + 1)
    | _ => none

/-- Clarity target pattern 3: capital Q, a digit 1-4, optional
whitespace, 4 digits (case sensitive: _score_clarity searches the raw
text). -/
def targetQuarterLen (cs : List Char) : Option ℕ :=
  match cs with
  | 'Q' :: c :: rest =>
    if (c = '1' || c = '2' || c = '3' || c = '4') then
      let m := leadingWs rest
      if fourDigitsAt (rest.drop m) then some (2 + m + 4) else none
    else none
  | _ => none

/-- Clarity target pattern 4: 4 digits, hyphen or en dash, 2 to 4
digits (greedy). -/
def targetRangeLen (cs : List Char) : Option ℕ :=
  match cs with
  | a :: b :: c :: d :: e :: rest =>
    if a.isDigit && b.isDigit && c.isDigit && d.isDigit && (e = '-' || e = '–') then
      let j := leadingDigits rest
      if j ≥ 2 then some (5 + min j 4) else none
    else none
  | _ => none

/-- _score_evidence_quality (features param analyses is unused in the
source body).  current_year is the literal 2026 in the source, so
recent means a date reference containing 2024, 2025 or 2026. -/
def score_evidence_quality (features : MLFeatures) : ComponentScore :=
  let data_score : ℚ :=
    min 10 ((features.numerical_data_count : ℚ) * (3/2) + (features.entity_count : ℚ) * (1/2))
  let source_score : ℚ := min 5 ((features.source_citation_count : ℚ) * (3/2))
  let recent_dates := features.date_references.filter
    (fun d => ["2024", "2025", "2026"].any (fun y => strContainsSub d y))
  let recency_score : ℚ := min 5 ((recent_dates.length : ℚ) * (3/2))
  let total := data_score + source_score + recency_score
  { name := "Evidence Quality"
    score := min 20 total
    breakdown :=
      [("verifiable_data_points", data_score),
       ("source_attribution", source_score),
       ("recency", recency_score)]
    notes :=
      ["Found " ++ toString features.numerical_data_count ++ " numerical data points",
       "Found " ++ toString features.source_citation_count ++ " source citations",
       "Date references: " ++ toString features.date_references.length] }

/-- _score_clarity. -/
def score_clarity (features : MLFeatures) (text : String) : ComponentScore :=
  let word_count := pySplitCount text
  let stance_words : List String :=
    ["bullish", "bearish", "buy", "sell", "long", "short", "invest", "avoid"]
  let stance_count := countPresent stance_words (pyLower text)
  let position_score : ℚ := min 5 ((stance_count : ℚ) * 2)
  let target_count :=
    countMatches targetMoneyLen text + countMatches targetPctLen text +
    countMatches targetQuarterLen text + countMatches targetRangeLen text
  let specificity_score : ℚ := min 10 ((target_count : ℚ) * (3/2))
  let vague_per_hundred : ℚ :=
    (features.vague_word_count : ℚ) / max ((word_count : ℚ) / 100) 1
  let ambiguity_score : ℚ := max 0 (5 - vague_per_hundred * 2)
  let total := position_score + specificity_score + ambiguity_score
  { name := "Clarity & Specificity"
    score := min 20 total
    breakdown :=
      [("clear_position", position_score),
       ("specific_targets", specificity_score),
       ("unambiguous_language", ambiguity_score)]
    notes :=
      ["Stance indicators: " ++ toString stance_count,
       "Specific targets/dates: " ++ toString target_count,
       "Vague words: " ++ toString features.vague_word_count] }

/-- _score_risk_awareness (the features param is unused in the body). -/
def score_risk_awareness (text : String) : ComponentScore :=
  let text_lower := pyLower text
  let risk_count := countPresent RISK_VOCABULARY_risk_terms text_lower
  let downside_score : ℚ := min 10 ((risk_count : ℚ) * 2)
  let exit_count := countPresent RISK_VOCABULARY_mitigation_terms text_lower
  let exit_score : ℚ := min 5 ((exit_count : ℚ) * 2)
  let sizing_terms : List String :=
    ["position size", "allocation", "% of portfolio", "weight", "cap"]
  let sizing_count := countPresent sizing_terms text_lower
  let sizing_score : ℚ := min 5 ((sizing_count : ℚ) * 2)
  let total := downside_score + exit_score + sizing_score
  { name := "Risk Awareness"
    score := min 20 total
    breakdown :=
      [("downside_scenarios", downside_score),
       ("exit_criteria", exit_score),
       ("position_sizing", sizing_score)]
    notes :=
      ["Risk terms found: " ++ toString risk_count,
       "Exit/mitigation terms: " ++ toString exit_count,
       "Sizing guidance: " ++ (if sizing_count > 0 then "True" else "False")] }

/-- _score_actionability (the features param is unused in the body). -/
def score_actionability (text : String) : ComponentScore :=
  let text_lower := pyLower text
  let action_count := countPresent ACTIONABILITY_SIGNALS_strong text_lower
  let trade_score : ℚ := min 10 ((action_count : ℚ) * 2)
  let entry_count := countPresent ACTIONABILITY_SIGNALS_entry_exit text_lower
  let signal_score : ℚ := min 5 ((entry_count : ℚ) * 2)
  let monitor_count := countPresent ACTIONABILITY_SIGNALS_monitoring text_lower
  let monitor_score : ℚ := min 5 ((monitor_count : ℚ) * 2)
  let total := trade_score + signal_score + monitor_score
  { name := "Actionability"
    score := min 20 total
    breakdown :=
      [("executable_trades", trade_score),
       ("entry_exit_signals", signal_score),
       ("monitoring_plan", monitor_score)]
    notes :=
      ["Action terms: " ++ toString action_count,
       "Entry/exit signals: " ++ toString entry_count,
       "Monitoring triggers: " ++ toString monitor_count] }

/-! ## LLM adjudicator (analyzer.py _llm_analyze and consumers)

The JSON the model returns is untrusted (missing keys must default
safely), so every consumed leaf is Option-valued where the source uses
a .get default. -/

/-- The logical_coherence object of the LLM response. -/
structure LLMCoherence where
  argument_flow : Option ℚ := none
  cause_effect_validity : Option ℚ := none
  absence_of_fallacies : Option ℚ := none
  total : Option ℚ := none
  notes : Option (List String) := none
deriving DecidableEq, Repr

/-- One classification_corrections entry; sentence_index defaults to 0
via .get in the source, correct_type defaults to the current type. -/
structure LLMCorrection where
  sentence_index : ℤ := 0
  correct_type : Option String := none
deriving DecidableEq, Repr

/-- One fallacies_detected entry; the source reads
str(f.get("sentence_reference", "")) and
f.get("explanation", f.get("type", "Logical issue")), both already
resolved to strings here. -/
structure LLMFallacy where
  sentence_reference : String := ""
  explanation : String := "Logical issue"
deriving DecidableEq, Repr

/-- The synthesis object of the LLM response. -/
structure LLMSynthesis where
  top_strengths : Option (List String) := none
  top_weaknesses : Option (List String) := none
  missing_elements : Option (List String) := none
  improvement_priorities : Option (List String) := none
deriving DecidableEq, Repr

/-- The parsed LLM JSON document (a missing list key and an empty list
are observationally identical through .get with default [], so the two
list fields are plain lists). -/
structure LLMResult where
  logical_coherence : Option LLMCoherence := none
  classification_corrections : List LLMCorrection := []
  fallacies_detected : List LLMFallacy := []
  synthesis : Option LLMSynthesis := none
deriving DecidableEq, Repr

/-- The fixed fallback payload _llm_analyze returns from its except
branch (analyzer.py lines 658-671). -/
def llm_fallback : LLMResult :=
  { logical_coherence := some
      { argument_flow := some 6
        cause_effect_validity := some 3
        absence_of_fallacies := some 3
        total := some 12
        notes := some ["LLM analysis failed"] }
    classification_corrections := []
    fallacies_detected := []
    synthesis := some
      { top_strengths := some ["Unable to analyze - LLM error"]
        top_weaknesses := some ["Unable to analyze - LLM error"]
        missing_elements := some []
        improvement_priorities := some [] } }

/-- _llm_analyze: the external chat completion either yields a parsed
JSON document or raises (transport error, JSON parse error); on raise
the fallback payload is returned instead. -/
def llm_analyze (llmCall : Option LLMResult) : LLMResult :=
  match llmCall with
  | some r => r
  | none => llm_fallback

/-- llm_result.get("logical_coherence", ...).get(field, default). -/
def cohGet (r : LLMResult) (f : LLMCoherence → Option ℚ) (dflt : ℚ) : ℚ :=
  match r.logical_coherence with
  | some c => (f c).getD dflt
  | none => dflt

/-- The Logical Coherence ComponentScore built in analyze (lines
146-155): the total is taken from the LLM verbatim, defaulting to 12,
with no clamping to the 0-20 range. -/
def coherence_component (r : LLMResult) : ComponentScore :=
  { name := "Logical Coherence"
    score := cohGet r (fun c => c.total) 12
    breakdown :=
      [("argument_flow", cohGet r (fun c => c.argument_flow) 6),
       ("cause_effect_validity", cohGet r (fun c => c.cause_effect_validity) 3),
       ("absence_of_fallacies", cohGet r (fun c => c.absence_of_fallacies) 3)]
    notes :=
      (match r.logical_coherence with
       | some c => c.notes.getD []
       | none => []) }

/-- llm_result.get("synthesis", ...).get(field, []). -/
def synthGet (r : LLMResult) (f : LLMSynthesis → Option (List String)) : List String :=
  match r.synthesis with
  | some s => (f s).getD []
  | none => []

/-! ## Correction and fallacy application -/

/-- In-place update of the element at a 0-based position. -/
def modifyNth (l : List α) (n : ℕ) (f : α → α) : List α :=
  match l.get? n with
  | some a => l.set n (f a)
  | none => l

/-- _apply_corrections: for each entry, 1-based index converted to
0-based and range checked; a correct_type string that fails to parse as
a SentenceType (Python ValueError) leaves the record untouched,
otherwise the type is overwritten and confidence set to 0.95. -/
def apply_corrections (analyses : List SentenceAnalysis)
    (corrections : List LLMCorrection) : List SentenceAnalysis :=
  corrections.foldl
    (fun acc corr =>
      let idx : ℤ := corr.sentence_index - 1
      if 0 ≤ idx ∧ idx < acc.length then
        modifyNth acc idx.toNat (fun a =>
          match parseSentenceType ((corr.correct_type).getD a.sentence_type.value) with
          | some t => { a with sentence_type := t, confidence := 19/20 }
          | none => a)
      else acc)
    analyses

/-- First maximal digit run of a string, as a number (re.search of a
digit-plus pattern then int()). -/
def firstIntOf (s : String) : Option ℕ :=
  let cs := s.toList.dropWhile (fun c => !c.isDigit)
  match cs with
  | [] => none
  | _ => some ((cs.takeWhile Char.isDigit).foldl (fun n c => n * 10 + (c.toNat - 48)) 0)

/-- _apply_fallacies (analyzer.py lines 684-706).  Two independent
steps per fallacy: resolve the first embedded integer of the reference
to a 1-based index and append a Fallback-prefixed issue there; and, for
a reference longer than 10 characters, append a Fallacy-prefixed issue
to every sentence matching by substring in either direction — note the
duplicate guard tests for the Fallback prefix while the appended string
carries the Fallacy prefix. -/
def apply_fallacies (analyses : List SentenceAnalysis)
    (fallacies : List LLMFallacy) : List SentenceAnalysis :=
  fallacies.foldl
    (fun acc fallacy =>
      let ref := fallacy.sentence_reference
      let explanation := fallacy.explanation
      let acc1 :=
        match firstIntOf ref with
        | some m =>
          let idx : ℤ := (m : ℤ) - 1
          if 0 ≤ idx ∧ idx < acc.length then
            modifyNth acc idx.toNat (fun a =>
              { a with issues := a.issues ++ ["Fallback: " ++ explanation] })
          else acc
        | none => acc
      if ref.length > 10 then
        acc1.map (fun a =>
          if strContainsSub (pyLower a.text) (pyLower ref) ||
             strContainsSub (pyLower ref) (pyLower a.text) then
            if ("Fallback: " ++ explanation) ∈ a.issues then a
            else { a with issues := a.issues ++ ["Fallacy: " ++ explanation] }
          else a)
      else acc1)
    analyses

/-! ## Bias detection (StrengthAnalyzer._detect_bias) -/

def bias_positive_words : List String :=
  ["growth", "expand", "profit", "gain", "upside", "bullish", "opportunity",
   "strong", "success"]

def bias_negative_words : List String :=
  ["risk", "loss", "decline", "downside", "bearish", "threat", "weak",
   "failure", "challenge"]

def counter_patterns : List String :=
  ["however", "but", "on the other hand", "alternatively", "risk",
   "downside", "bear case"]

/-- pos_count of _detect_bias. -/
def bias_pos_count (thesis_text : String) : ℕ :=
  countPresent bias_positive_words (pyLower thesis_text)

/-- neg_count of _detect_bias. -/
def bias_neg_count (thesis_text : String) : ℕ :=
  countPresent bias_negative_words (pyLower thesis_text)

/-- _detect_bias (analyzer.py lines 1098-1141).  The analyses parameter
is unused in the source body; total falls back to 1 when both sentiment
counts are zero, so the two percentages are then both 0. -/
def detect_bias (analyses : List SentenceAnalysis) (thesis_text : String) :
    BiasAnalysis :=
  let _ := analyses
  let text_lower := pyLower thesis_text
  let pos_count := bias_pos_count thesis_text
  let neg_count := bias_neg_count thesis_text
  let total : ℚ :=
    if pos_count + neg_count > 0 then ((pos_count + neg_count : ℕ) : ℚ) else 1
  let positive_pct := ((pos_count : ℚ) / total) * 100
  let negative_pct := ((neg_count : ℚ) / total) * 100
  let counter_present := anyPresent counter_patterns text_lower
  let imbalance := |positive_pct - negative_pct| / 100
  let bias_score := imbalance * (if counter_present then 1/2 else 1)
  let is_biased := decide (bias_score > 3/5) && !counter_present
  let flags : List String :=
    (if positive_pct > 80 then ["Overly positive sentiment (>80% positive)"] else []) ++
    (if negative_pct > 80 then ["Overly negative sentiment (>80% negative)"] else []) ++
    (if !counter_present then
      ["No counter-arguments or alternative scenarios presented"] else [])
  { is_biased := is_biased
    bias_score := bias_score
    positive_pct := positive_pct
    negative_pct := negative_pct
    counter_arguments_present := counter_present
    one_sided_flags := flags }

/-! ## Report assembly (models.StrengthReport, StrengthAnalyzer.analyze) -/

/-- StrengthReport.calculate_grade. -/
def calculate_grade (score : ℚ) : String :=
  if score ≥ 90 then "A"
  else if score ≥ 75 then "B"
  else if score ≥ 60 then "C"
  else if score ≥ 45 then "D"
  else "F"

/-- models.StrengthReport, restricted to the fields the pipeline claims
read (audit_table, logic_chain, weakness_report, consistency_issues and
the echoed ml_features are assembled by code no claim touches and are
not modelled). -/
structure StrengthReport where
  overall_score : ℚ
  grade : String
  evidence_quality : ComponentScore
  logical_coherence : ComponentScore
  clarity : ComponentScore
  risk_awareness : ComponentScore
  actionability : ComponentScore
  sentence_analyses : List SentenceAnalysis
  fact_count : ℕ
  assumption_count : ℕ
  opinion_count : ℕ
  projection_count : ℕ
  supported_percentage : ℚ
  top_strengths : List String
  top_weaknesses : List String
  missing_elements : List String
  improvement_priorities : List String
  bias_analysis : BiasAnalysis
deriving DecidableEq, Repr

/-- StrengthAnalyzer.analyze: the pipeline from the classified
sentences to the final report.  Inputs which the out-of-scope spaCy
preprocessing produces (the segmented sentences and the MLFeatures
counts) are parameters, as are the embedding and LLM oracles.  The
corrections and fallacies are applied to the sentence records in place
before the counts and the bias analysis are computed, exactly as the
in-place mutation in the source does. -/
def analyze (oracle : EmbedOracle) (llmCall : Option LLMResult)
    (thesis_text : String) (sentences : List String) (features : MLFeatures) :
    StrengthReport :=
  let cls := classify_sentences_ml oracle sentences
  let evidence_score := score_evidence_quality features
  let clarity_score := score_clarity features thesis_text
  let risk_score := score_risk_awareness thesis_text
  let action_score := score_actionability thesis_text
  let llm_result := llm_analyze llmCall
  let coherence_score := coherence_component llm_result
  let corrections := llm_result.classification_corrections
  let sas1 :=
    if corrections.isEmpty then cls.1 else apply_corrections cls.1 corrections
  let fallacies := llm_result.fallacies_detected
  let sas2 :=
    if fallacies.isEmpty then sas1 else apply_fallacies sas1 fallacies
  let bias_analysis := detect_bias sas2 thesis_text
  let countType := fun (t : SentenceType) =>
    (sas2.filter (fun a => a.sentence_type = t)).length
  let supported_count :=
    (sas2.filter (fun a => a.support_level = SupportLevel.SUPPORTED)).length
  let overall :=
    evidence_score.score + coherence_score.score + clarity_score.score +
    risk_score.score + action_score.score
  { overall_score := overall
    grade := calculate_grade overall
    evidence_quality := evidence_score
    logical_coherence := coherence_score
    clarity := clarity_score
    risk_awareness := risk_score
    actionability := action_score
    sentence_analyses := sas2
    fact_count := countType .FACT
    assumption_count := countType .ASSUMPTION
    opinion_count := countType .OPINION
    projection_count := countType .PROJECTION
    supported_percentage :=
      if sas2.isEmpty then 0 else ((supported_count : ℚ) / (sas2.length : ℚ)) * 100
    top_strengths := synthGet llm_result (fun s => s.top_strengths)
    top_weaknesses := synthGet llm_result (fun s => s.top_weaknesses)
    missing_elements := synthGet llm_result (fun s => s.missing_elements)
    improvement_priorities := synthGet llm_result (fun s => s.improvement_priorities)
    bias_analysis := bias_analysis }

/-! ## Service boundary (src/backend/main.py analyze_thesis) -/

/-- The model of fastapi.HTTPException as the endpoint observes it. -/
structure HTTPError where
  status_code : ℕ
  detail : String
deriving DecidableEq, Repr

/-- str() of a starlette HTTPException: "status_code: detail". -/
def httpErrorStr (e : HTTPError) : String :=
  toString e.status_code ++ ": " ++ e.detail

/-- The analyze_thesis endpoint (main.py lines 74-98) on the decoded
upload text.  The whole body sits in one try whose except-Exception
clause re-raises every exception — including the HTTPException(400)
raised by the length validation — as HTTPException(500, str(e)).  The
analyzer run is abstracted as analyzeFn (the validation happens before
it is invoked). -/
def analyze_thesis (analyzeFn : String → StrengthReport) (text : String) :
    Except HTTPError StrengthReport :=
  let body : Except HTTPError StrengthReport :=
    if text = "" ∨ (pyStrip text).length < 50 then
      Except.error
        { status_code := 400
          detail := "Thesis text must be at least 50 characters long" }
    else
      Except.ok (analyzeFn text)
  match body with
  | Except.ok r => Except.ok r
  | Except.error e =>
    Except.error { status_code := 500, detail := httpErrorStr e }

/-! ## Concrete instances used by witnesses and counterexamples -/

/-- An embedding oracle whose every call fails (the pattern-only
fallback path); also the behaviour when the embedding model is
unavailable. -/
def oracleNone : EmbedOracle := fun _ => none

/-- A stand-in for the analyzer run inside the endpoint. -/
def dummyAnalyzeFn : String → StrengthReport :=
  fun _ => analyze oracleNone none "" [] {}

/-- A second, different stand-in analyzer (to witness that a rejected
request never invokes the analyzer at all). -/
def dummyAnalyzeFn2 : String → StrengthReport :=
  fun t => analyze oracleNone none t [] {}

/-- A classified sentence record with no issues yet. -/
def c4_sentence : SentenceAnalysis :=
  { index := 1
    text := "example sentence text"
    sentence_type := .CONTEXT
    support_level := .PARTIAL
    role := .FOUNDATION
    confidence := 1/2
    issues := [] }

/-- A fallacy entry whose reference is a long quote (more than 10
characters, no digits) matching c4_sentence by substring. -/
def c4_fallacy : LLMFallacy :=
  { sentence_reference := "example sentence"
    explanation := "hasty generalization" }

/-- An LLM response whose logical_coherence total is 25: syntactically
valid JSON the analyzer accepts verbatim. -/
def llmBad : LLMResult :=
  { logical_coherence := some { total := some 25 } }

/-- Number of non-whitespace characters of a sentence.  This definition
follows the wording of claim C5 (the spec says the embedding gate
requires more than 20 non-whitespace characters) for comparison against
the code gate, which counts all characters of the stripped sentence. -/
def nonWhitespaceCount (s : String) : ℕ :=
  (s.toList.filter (fun c => !(isPyWs c))).length

/-- Rank of a letter grade, for stating that calculate_grade is
monotone (F lowest, A highest). -/
def gradeRank (g : String) : ℕ :=
  if g = "F" then 0
  else if g = "D" then 1
  else if g = "C" then 2
  else if g = "B" then 3
  else 4

/-! ## Helper lemmas -/

/-- Each quantitative scorer clamps at 20 and only adds clamped
nonnegative sub-scores: evidence quality stays in the 0 to 20 band. -/
lemma score_evidence_quality_bounds (features : MLFeatures) :
    0 ≤ (score_evidence_quality features).score ∧
    (score_evidence_quality features).score ≤ 20 := by
  unfold score_evidence_quality
  dsimp only
  refine ⟨le_min (by norm_num) ?_, min_le_left _ _⟩
  have h1 : (0:ℚ) ≤ min 10 ((features.numerical_data_count : ℚ) * (3/2) +
      (features.entity_count : ℚ) * (1/2)) := le_min (by norm_num) (by positivity)
  have h2 : (0:ℚ) ≤ min 5 ((features.source_citation_count : ℚ) * (3/2)) :=
    le_min (by norm_num) (by positivity)
  have h3 : (0:ℚ) ≤ min 5
      (((features.date_references.filter
        (fun d => ["2024", "2025", "2026"].any (fun y => strContainsSub d y))).length : ℚ) *
        (3/2)) := le_min (by norm_num) (by positivity)
  linarith

/-- Clarity stays in the 0 to 20 band. -/
lemma score_clarity_bounds (features : MLFeatures) (text : String) :
    0 ≤ (score_clarity features text).score ∧
    (score_clarity features text).score ≤ 20 := by
  unfold score_clarity
  dsimp only
  refine ⟨le_min (by norm_num) ?_, min_le_left _ _⟩
  have h1 : (0:ℚ) ≤ min 5 ((countPresent
      ["bullish", "bearish", "buy", "sell", "long", "short", "invest", "avoid"]
      (pyLower text) : ℚ) * 2) := le_min (by norm_num) (by positivity)
  have h2 : (0:ℚ) ≤ min 10 (((countMatches targetMoneyLen text +
      countMatches targetPctLen text + countMatches targetQuarterLen text +
      countMatches targetRangeLen text : ℕ) : ℚ) * (3/2)) :=
    le_min (by norm_num) (by positivity)
  have h3 : (0:ℚ) ≤ max 0 (5 - (features.vague_word_count : ℚ) /
      max ((pySplitCount text : ℚ) / 100) 1 * 2) := le_max_left _ _
  linarith

/-- Risk awareness stays in the 0 to 20 band. -/
lemma score_risk_awareness_bounds (text : String) :
    0 ≤ (score_risk_awareness text).score ∧
    (score_risk_awareness text).score ≤ 20 := by
  unfold score_risk_awareness
  dsimp only
  refine ⟨le_min (by norm_num) ?_, min_le_left _ _⟩
  have h1 : (0:ℚ) ≤ min 10 ((countPresent RISK_VOCABULARY_risk_terms (pyLower text) : ℚ) * 2) :=
    le_min (by norm_num) (by positivity)
  have h2 : (0:ℚ) ≤ min 5 ((countPresent RISK_VOCABULARY_mitigation_terms (pyLower text) : ℚ) * 2) :=
    le_min (by norm_num) (by positivity)
  have h3 : (0:ℚ) ≤ min 5 ((countPresent
      ["position size", "allocation", "% of portfolio", "weight", "cap"]
      (pyLower text) : ℚ) * 2) := le_min (by norm_num) (by positivity)
  linarith

/-- Actionability stays in the 0 to 20 band. -/
lemma score_actionability_bounds (text : String) :
    0 ≤ (score_actionability text).score ∧
    (score_actionability text).score ≤ 20 := by
  unfold score_actionability
  dsimp only
  refine ⟨le_min (by norm_num) ?_, min_le_left _ _⟩
  have h1 : (0:ℚ) ≤ min 10 ((countPresent ACTIONABILITY_SIGNALS_strong (pyLower text) : ℚ) * 2) :=
    le_min (by norm_num) (by positivity)
  have h2 : (0:ℚ) ≤ min 5 ((countPresent ACTIONABILITY_SIGNALS_entry_exit (pyLower text) : ℚ) * 2) :=
    le_min (by norm_num) (by positivity)
  have h3 : (0:ℚ) ≤ min 5 ((countPresent ACTIONABILITY_SIGNALS_monitoring (pyLower text) : ℚ) * 2) :=
    le_min (by norm_num) (by positivity)
  linarith

/-! ## Claim theorems -/

/-- C1 (counterexample): the logical-coherence component is copied
verbatim from the LLM JSON without clamping, so a response with total
25 produces a report whose coherence score lies outside the 0 to 20
band claimed for every component. -/
theorem C1_counterexample :
    (analyze oracleNone (some llmBad) "" [] {}).logical_coherence.score = 25 ∧
    ¬ ((analyze oracleNone (some llmBad) "" [] {}).logical_coherence.score ≤ 20) := by
  constructor
  · rfl
  · intro h
    have h25 : (analyze oracleNone (some llmBad) "" [] {}).logical_coherence.score = 25 := rfl
    rw [h25] at h
    norm_num at h

/-- C1 (amended): for every report StrengthAnalyzer.analyze produces,
overall_score is the arithmetic sum of the five component scores, and
each of the four ML-computed components (evidence quality, clarity,
risk awareness, actionability) lies in the 0 to 20 band; the
logical-coherence score is taken unclamped from the LLM response
(defaulting to 12) and need not lie in that band. -/
theorem C1_overall_sum_and_bounds (oracle : EmbedOracle) (llmCall : Option LLMResult)
    (thesis_text : String) (sentences : List String) (features : MLFeatures) :
    (analyze oracle llmCall thesis_text sentences features).overall_score =
      (analyze oracle llmCall thesis_text sentences features).evidence_quality.score +
      (analyze oracle llmCall thesis_text sentences features).logical_coherence.score +
      (analyze oracle llmCall thesis_text sentences features).clarity.score +
      (analyze oracle llmCall thesis_text sentences features).risk_awareness.score +
      (analyze oracle llmCall thesis_text sentences features).actionability.score ∧
    (0 ≤ (analyze oracle llmCall thesis_text sentences features).evidence_quality.score ∧
      (analyze oracle llmCall thesis_text sentences features).evidence_quality.score ≤ 20) ∧
    (0 ≤ (analyze oracle llmCall thesis_text sentences features).clarity.score ∧
      (analyze oracle llmCall thesis_text sentences features).clarity.score ≤ 20) ∧
    (0 ≤ (analyze oracle llmCall thesis_text sentences features).risk_awareness.score ∧
      (analyze oracle llmCall thesis_text sentences features).risk_awareness.score ≤ 20) ∧
    (0 ≤ (analyze oracle llmCall thesis_text sentences features).actionability.score ∧
      (analyze oracle llmCall thesis_text sentences features).actionability.score ≤ 20) := by
  refine ⟨rfl, ?_, ?_, ?_, ?_⟩
  · exact score_evidence_quality_bounds features
  · exact score_clarity_bounds features thesis_text
  · exact score_risk_awareness_bounds thesis_text
  · exact score_actionability_bounds thesis_text

/-- C1 (witness): the amended statement evaluated at a concrete run. -/
theorem C1_witness :
    (analyze oracleNone none "sample" [] {}).overall_score =
      (analyze oracleNone none "sample" [] {}).evidence_quality.score +
      (analyze oracleNone none "sample" [] {}).logical_coherence.score +
      (analyze oracleNone none "sample" [] {}).clarity.score +
      (analyze oracleNone none "sample" [] {}).risk_awareness.score +
      (analyze oracleNone none "sample" [] {}).actionability.score :=
  (C1_overall_sum_and_bounds oracleNone none "sample" [] {}).1

/-- C2 (code_bug record): a request whose text is empty or shorter
than 50 characters after stripping is rejected before the analyzer is
invoked (the result does not depend on the analyzer function), but the
HTTPException(400) raised by the validation is caught by the blanket
except-Exception clause of the endpoint and re-raised as
HTTPException(500, str(e)) — the caller sees a server error, not the
client error the spec promises. -/
theorem C2_short_input_rejected (f g : String → StrengthReport) (text : String)
    (h : text = "" ∨ (pyStrip text).length < 50) :
    analyze_thesis f text =
      Except.error { status_code := 500, detail := "400: Thesis text must be at least 50 characters long" } ∧
    analyze_thesis f text = analyze_thesis g text := by
  unfold analyze_thesis
  simp only [if_pos h]
  exact ⟨rfl, trivial⟩

/-- C2 (witness): a 9-character upload is answered with status 500
regardless of which analyzer stands behind the endpoint. -/
theorem C2_witness :
    analyze_thesis dummyAnalyzeFn "too short" =
      Except.error { status_code := 500, detail := "400: Thesis text must be at least 50 characters long" } ∧
    analyze_thesis dummyAnalyzeFn "too short" = analyze_thesis dummyAnalyzeFn2 "too short" :=
  C2_short_input_rejected dummyAnalyzeFn dummyAnalyzeFn2 "too short" (Or.inr (by decide))

/-- C3 (counterexample): on a text containing no positive and no
negative sentiment word, the divisor falls back to 1 and the two
percentages are both 0, so they do not sum to 100. -/
theorem C3_counterexample :
    ¬ ((detect_bias [] "xyz").positive_pct + (detect_bias [] "xyz").negative_pct = 100) := by
  have h1 : bias_pos_count "xyz" = 0 := by decide
  have h2 : bias_neg_count "xyz" = 0 := by decide
  unfold detect_bias
  dsimp only
  rw [h1, h2]
  norm_num

/-- C3 (amended): whenever at least one positive or negative sentiment
word occurs in the text, the two percentages _detect_bias returns sum
to exactly 100; when none occurs, both are 0. -/
theorem C3_ratios_sum (analyses : List SentenceAnalysis) (text : String)
    (h : bias_pos_count text + bias_neg_count text > 0) :
    (detect_bias analyses text).positive_pct + (detect_bias analyses text).negative_pct = 100 := by
  unfold detect_bias
  dsimp only
  rw [if_pos h]
  have ht : (0:ℚ) < (bias_pos_count text : ℚ) + (bias_neg_count text : ℚ) := by
    exact_mod_cast h
  push_cast
  field_simp
  ring

/-- C3 (witness): the amended statement at a text holding one positive
sentiment word. -/
theorem C3_witness :
    (detect_bias [] "growth").positive_pct + (detect_bias [] "growth").negative_pct = 100 :=
  C3_ratios_sum [] "growth" (by decide)

/-- C4 (code_bug record): applying the same long-quote fallacy twice
appends the identical issue string twice, because the duplicate guard
in _apply_fallacies tests for the Fallback prefix while the string it
appends carries the Fallacy prefix; re-application is not idempotent
and the per-sentence issues list ends with duplicates. -/
theorem C4_reapply_duplicates :
    (apply_fallacies (apply_fallacies [c4_sentence] [c4_fallacy]) [c4_fallacy]).map
        (fun a => a.issues) =
      [["Fallacy: hasty generalization", "Fallacy: hasty generalization"]] ∧
    (apply_fallacies [c4_sentence] [c4_fallacy]).map (fun a => a.issues) ≠
      (apply_fallacies (apply_fallacies [c4_sentence] [c4_fallacy]) [c4_fallacy]).map
        (fun a => a.issues) := by
  decide

/-- C5 (amended): the classifier consults the embedding vote exactly
when the pattern gate holds (pattern_total under 5, or arg-max share
under 0.7) and the sentence, stripped of leading and trailing
whitespace, is longer than 20 characters — a character count in which
internal whitespace participates, not a count of non-whitespace
characters. -/
theorem C5_gate_characterization (sentence : String) :
    consults_embedding sentence = true ↔
      ((pattern_total sentence < 5 ∨
        (pattern_max_score sentence : ℚ) /
          ((max (pattern_total sentence) 1 : ℕ) : ℚ) < 7/10) ∧
       (pyStrip sentence).length > 20) := by
  simp [consults_embedding, use_embeddings, Bool.and_eq_true, Bool.or_eq_true,
    decide_eq_true_eq]

/-- C5 (counterexample): a sentence of 11 non-whitespace characters
whose stripped length is 21 does trigger the embedding vote, refuting
the claim that 20 or fewer non-whitespace characters never trigger
it. -/
theorem C5_counterexample :
    nonWhitespaceCount "a b c d e f g h i j k" ≤ 20 ∧
    consults_embedding "a b c d e f g h i j k" = true := by
  decide

/-- C5 (witness): the gate characterization at a concrete sentence. -/
theorem C5_witness :
    consults_embedding "hello there my good friend" = true ↔
      ((pattern_total "hello there my good friend" < 5 ∨
        (pattern_max_score "hello there my good friend" : ℚ) /
          ((max (pattern_total "hello there my good friend") 1 : ℕ) : ℚ) < 7/10) ∧
       (pyStrip "hello there my good friend").length > 20) :=
  C5_gate_characterization "hello there my good friend"

/-- C6: whenever any contrast or risk keyword occurs in the text,
_detect_bias reports is_biased false, regardless of the sentiment
imbalance (the conjunct NOT counter_present is immediately false, and
the 0.5 damping independently caps the score at 0.5, under the 0.6
threshold). -/
theorem C6_counter_blocks_bias (analyses : List SentenceAnalysis) (text : String)
    (h : anyPresent counter_patterns (pyLower text) = true) :
    (detect_bias analyses text).is_biased = false := by
  unfold detect_bias
  dsimp only
  rw [h]
  simp

/-- C6 (witness): a heavily positive text with one contrast keyword. -/
theorem C6_witness :
    (detect_bias [] "strong growth and profit however").is_biased = false :=
  C6_counter_blocks_bias [] "strong growth and profit however" (by decide)

/-- C7: calculate_grade is the deterministic monotone step function
with thresholds 90, 75, 60, 45 (A, B, C, D, F), and in particular
maps 90 to A and 89.9 to B. -/
theorem C7_grade_thresholds :
    (∀ s : ℚ, 90 ≤ s → calculate_grade s = "A") ∧
    (∀ s : ℚ, 75 ≤ s → s < 90 → calculate_grade s = "B") ∧
    (∀ s : ℚ, 60 ≤ s → s < 75 → calculate_grade s = "C") ∧
    (∀ s : ℚ, 45 ≤ s → s < 60 → calculate_grade s = "D") ∧
    (∀ s : ℚ, s < 45 → calculate_grade s = "F") ∧
    (∀ s t : ℚ, s ≤ t → gradeRank (calculate_grade s) ≤ gradeRank (calculate_grade t)) ∧
    calculate_grade 90 = "A" ∧ calculate_grade (899/10) = "B" := by
  refine ⟨?_, ?_, ?_, ?_, ?_, ?_, ?_, ?_⟩
  · intro s h; unfold calculate_grade; split_ifs <;> first | rfl | linarith
  · intro s h1 h2; unfold calculate_grade; split_ifs <;> first | rfl | linarith
  · intro s h1 h2; unfold calculate_grade; split_ifs <;> first | rfl | linarith
  · intro s h1 h2; unfold calculate_grade; split_ifs <;> first | rfl | linarith
  · intro s h; unfold calculate_grade; split_ifs <;> [linarith; linarith; linarith; linarith; rfl]
  · intro s t hst; unfold calculate_grade; split_ifs <;> first | decide | linarith
  · decide
  · norm_num [calculate_grade]

/-- C7 (witness): the step function evaluated through the theorem at
concrete scores. -/
theorem C7_witness :
    calculate_grade 95 = "A" ∧
    gradeRank (calculate_grade 50) ≤ gradeRank (calculate_grade 80) :=
  ⟨C7_grade_thresholds.1 95 (by norm_num),
   C7_grade_thresholds.2.2.2.2.2.1 50 80 (by norm_num)⟩

/-- C8 (amended): a sentence enters the ambiguous list exactly when
its computed confidence is strictly below 0.55, but the value stored
in the list is the 0-based loop position of the sentence — one less
than the 1-based index field of its record, which always equals
position + 1. -/
theorem C8_ambiguity (oracle : EmbedOracle) (sentences : List String) (i : ℕ) :
    (i ∈ (classify_sentences_ml oracle sentences).2 ↔
      ∃ h : i < (classify_sentences_ml oracle sentences).1.length,
        ((classify_sentences_ml oracle sentences).1)[i].confidence < 11/20) ∧
    (∀ h : i < (classify_sentences_ml oracle sentences).1.length,
      ((classify_sentences_ml oracle sentences).1)[i].index = i + 1) := by
  have hmk : (mkRat 11 20 : ℚ) = 11/20 := by norm_num [Rat.mkRat_eq_div]
  constructor
  · simp only [classify_sentences_ml, List.mem_filter, List.mem_range,
      decide_eq_true_eq, List.length_map, List.length_range, List.getElem_map,
      List.getElem_range, hmk, exists_prop]
  · intro h
    simp only [classify_sentences_ml, List.getElem_map, List.getElem_range]
    rfl

/-- C8 (counterexample): a one-sentence input whose sentence is
ambiguous; the ambiguous list holds 0, while the data-model index of
that sentence is 1, so the listed value is not the 1-based position
the claim asserts. -/
theorem C8_counterexample :
    (classify_sentences_ml oracleNone ["hello world something plain"]).2 = [0] ∧
    (classify_sentences_ml oracleNone ["hello world something plain"]).1.map
      (fun a => a.index) = [1] ∧
    ¬ ((0 : ℕ) ∈ (classify_sentences_ml oracleNone ["hello world something plain"]).1.map
      (fun a => a.index)) := by
  decide

/-- C8 (witness): the ambiguity characterization at position 0 of a
concrete one-sentence run. -/
theorem C8_witness :
    0 ∈ (classify_sentences_ml oracleNone ["hello world something plain"]).2 ↔
      ∃ h : 0 < (classify_sentences_ml oracleNone ["hello world something plain"]).1.length,
        ((classify_sentences_ml oracleNone ["hello world something plain"]).1)[0].confidence < 11/20 :=
  (C8_ambiguity oracleNone ["hello world something plain"] 0).1

/-- C9: when the LLM call raises (modelled by the none oracle), the
analysis still completes: the report carries the fallback coherence
score 12, the stub synthesis strengths, and — the fallback corrections
and fallacies lists being empty — sentence records identical to the
classifier output. -/
theorem C9_llm_failure_degraded (oracle : EmbedOracle) (thesis_text : String)
    (sentences : List String) (features : MLFeatures) :
    (analyze oracle none thesis_text sentences features).logical_coherence.score = 12 ∧
    (analyze oracle none thesis_text sentences features).top_strengths =
      ["Unable to analyze - LLM error"] ∧
    (analyze oracle none thesis_text sentences features).sentence_analyses =
      (classify_sentences_ml oracle sentences).1 :=
  ⟨rfl, rfl, rfl⟩

/-- C9 (witness): the degraded-run facts at a concrete input. -/
theorem C9_witness :
    (analyze oracleNone none "text" ["text"] {}).logical_coherence.score = 12 ∧
    (analyze oracleNone none "text" ["text"] {}).top_strengths =
      ["Unable to analyze - LLM error"] ∧
    (analyze oracleNone none "text" ["text"] {}).sentence_analyses =
      (classify_sentences_ml oracleNone ["text"]).1 :=
  C9_llm_failure_degraded oracleNone "text" ["text"] {}

/-- The role assignment can only produce the four roles named in its
if-chain. -/
lemma roleOf_cases (i n : ℕ) (sl : String) (t : SentenceType) :
    roleOf i n sl t = SentenceRole.FOUNDATION ∨ roleOf i n sl t = SentenceRole.EVIDENCE ∨
    roleOf i n sl t = SentenceRole.CONCLUSION ∨ roleOf i n sl t = SentenceRole.BRIDGE := by
  unfold roleOf
  split_ifs <;> simp

/-- C10: the classifier never assigns the TANGENT role: every record
it produces carries one of FOUNDATION, EVIDENCE, CONCLUSION, BRIDGE,
although TANGENT is a declared member of the role enumeration. -/
theorem C10_no_tangent (oracle : EmbedOracle) (sentences : List String)
    (a : SentenceAnalysis) (h : a ∈ (classify_sentences_ml oracle sentences).1) :
    a.role = SentenceRole.FOUNDATION ∨ a.role = SentenceRole.EVIDENCE ∨
    a.role = SentenceRole.CONCLUSION ∨ a.role = SentenceRole.BRIDGE := by
  simp only [classify_sentences_ml, List.mem_map, List.mem_range] at h
  obtain ⟨i, hi, rfl⟩ := h
  exact roleOf_cases i sentences.length (pyLower (sentences.getD i "")) _

/-- C10 (witness): the no-TANGENT fact at a concrete classified
sentence. -/
theorem C10_witness :
    (classifyOne oracleNone 1 0 "hi").role = SentenceRole.FOUNDATION ∨
    (classifyOne oracleNone 1 0 "hi").role = SentenceRole.EVIDENCE ∨
    (classifyOne oracleNone 1 0 "hi").role = SentenceRole.CONCLUSION ∨
    (classifyOne oracleNone 1 0 "hi").role = SentenceRole.BRIDGE :=
  C10_no_tangent oracleNone ["hi"] (classifyOne oracleNone 1 0 "hi") (by decide)

end ThesisAnalyzer
